import Mathlib

/-!
# Verification of the ICP library (point-to-plane error metric and engine state)

Shallow embedding of the ICP registration library:
* `ErrorPointToPlane` — the point-to-plane error strategy of
  `src/icp/error_point_to_plane.cpp` (residual vector, weight matrix, Jacobian,
  input binding, NaN diagnostics);
* `IcpParameters`, `IcpResults`, `Icp` — the configuration, result record and
  engine state of `include/icp/icp.hpp`.

Scalars: the C++ code computes in IEEE `float`.  We model a floating-point
value as either a finite exact rational or a single collapsed non-finite
value (`NaN` / `±∞`).  Arithmetic on finite values is exact (rounding and
overflow are not modelled); any operation touching a non-finite operand is
non-finite, matching IEEE contamination of NaN/∞ through `+`, `-`, `*`.
-/

/-- A model of an IEEE floating-point scalar: a finite value (exact rational)
or a collapsed non-finite value (NaN or ±∞). -/
inductive F where
  | fin (q : ℚ)
  | nonfin
  deriving DecidableEq

namespace F

def add : F → F → F
  | fin a, fin b => fin (a + b)
  | _, _ => nonfin

def sub : F → F → F
  | fin a, fin b => fin (a - b)
  | _, _ => nonfin

def mul : F → F → F
  | fin a, fin b => fin (a * b)
  | _, _ => nonfin

instance : Add F := ⟨add⟩
instance : Sub F := ⟨sub⟩
instance : Mul F := ⟨mul⟩
instance : Zero F := ⟨fin 0⟩
instance : One F := ⟨fin 1⟩
instance (n : ℕ) : OfNat F n := ⟨fin n⟩
instance : Inhabited F := ⟨fin 0⟩

/-- The IEEE finiteness test used by `allFinite` (a conjunction over
entries): true exactly on finite values. -/
def isFinite : F → Bool
  | fin _ => true
  | nonfin => false

@[simp] theorem fin_add_fin (a b : ℚ) : fin a + fin b = fin (a + b) := rfl

@[simp] theorem fin_sub_fin (a b : ℚ) : fin a - fin b = fin (a - b) := rfl

@[simp] theorem fin_mul_fin (a b : ℚ) : fin a * fin b = fin (a * b) := rfl

@[simp] theorem nonfin_mul (a : F) : nonfin * a = nonfin := rfl

@[simp] theorem mul_nonfin (a : F) : a * nonfin = nonfin := by cases a <;> rfl

@[simp] theorem nonfin_add (a : F) : nonfin + a = nonfin := rfl

@[simp] theorem add_nonfin (a : F) : a + nonfin = nonfin := by cases a <;> rfl

@[simp] theorem ofNat_eq_fin (n : ℕ) [n.AtLeastTwo] :
    (OfNat.ofNat n : F) = fin (OfNat.ofNat n) := rfl

@[simp] theorem zero_eq_fin : (0 : F) = fin 0 := rfl

@[simp] theorem one_eq_fin : (1 : F) = fin 1 := rfl

@[simp] theorem isFinite_fin (a : ℚ) : isFinite (fin a) = true := rfl

@[simp] theorem isFinite_nonfin : isFinite nonfin = false := rfl

end F

/-- Type `pcl::PointXYZ`: a 3D point (the reference-cloud point type of the
instantiation `ErrorPointToPlane<float, pcl::PointXYZ, pcl::PointNormal>`). -/
structure Point3 where
  x : F
  y : F
  z : F
  deriving DecidableEq

instance : Inhabited Point3 := ⟨⟨0, 0, 0⟩⟩

/-- Type `pcl::PointNormal`: a 3D point carrying a surface normal (the
current-cloud point type). -/
structure PointN where
  x : F
  y : F
  z : F
  normal_x : F
  normal_y : F
  normal_z : F
  deriving DecidableEq

instance : Inhabited PointN := ⟨⟨0, 0, 0, 0, 0, 0⟩⟩

/-- Modelled from the spec: `pcltools::substractPointcloud` (called at
`error_point_to_plane.cpp:25`) is not under `src/`; per the spec the residual
projects the vector `(current_i − reference_i)`, so the helper pairs the two
clouds element-wise and returns the per-point difference current − reference.
Pairing is element-wise, so the result has `min |reference| |current|`
points. -/
def substractPointcloud (reference : List Point3) (current : List PointN) : List Point3 :=
  List.zipWith (fun r c => ⟨c.x - r.x, c.y - r.y, c.z - r.z⟩) reference current

/-- State of `ErrorPointToPlane<float, pcl::PointXYZ, pcl::PointNormal>`:
the two bound clouds (null `shared_ptr`s are modelled as the empty cloud; no
claim distinguishes them), the residual vector `errorVector_` (n×1), the
weight matrix `weights_` (n×3, a row per point), and the Jacobian `J_` (n×6,
a row per point). -/
structure ErrorPointToPlane where
  current : List PointN
  reference : List Point3
  errorVector : List F
  weights : List (F × F × F)
  J : List (List F)
  deriving DecidableEq

namespace ErrorPointToPlane

/-- Method `ErrorPointToPlane::computeJacobian` (`error_point_to_plane.cpp:7-19`):
`J_.setZero(n, 6)` with `n = current_->size()`, then row `i` is filled with
`[normal_x, normal_y, normal_z, y·normal_z − z·normal_y,
z·normal_x − x·normal_z, y·normal_y − y·normal_x]` of current point `i`;
since every row is overwritten the net effect is a map over the current
cloud. -/
def computeJacobian (st : ErrorPointToPlane) : ErrorPointToPlane :=
  { st with
    J := st.current.map (fun p =>
      [p.normal_x, p.normal_y, p.normal_z,
       p.y * p.normal_z - p.z * p.normal_y,
       p.z * p.normal_x - p.x * p.normal_z,
       p.y * p.normal_y - p.y * p.normal_x]) }

/-- The difference cloud `pc_e` built at the top of `computeError`
(`error_point_to_plane.cpp:25`). -/
def pcE (st : ErrorPointToPlane) : List Point3 :=
  substractPointcloud st.reference st.current

/-- The residual vector after the loop of `computeError`
(`error_point_to_plane.cpp:28-35`): for `i < pc_e->size()`,
`errorVector_[i] = weights_(i,0)·n.normal_x·p.x + weights_(i,1)·n.normal_y·p.y
+ weights_(i,2)·n.normal_z·p.z` with `p = (*pc_e)[i]` and
`n = (*current_)[i]`; entries past `pc_e->size()` keep their previous
values.  (The `getD` defaults are irrelevant: `computeError` only uses this
vector when every access is in bounds.) -/
def computedErrorVector (st : ErrorPointToPlane) : List F :=
  (List.range (pcE st).length).map (fun i =>
    let p := (pcE st).getD i default
    let n := st.current.getD i default
    let w := st.weights.getD i (0, 0, 0)
    w.1 * n.normal_x * p.x + w.2.1 * n.normal_y * p.y + w.2.2 * n.normal_z * p.z)
  ++ st.errorVector.drop (pcE st).length

/-- One glog `LOG(WARNING)` record emitted by `computeError`
(`error_point_to_plane.cpp:36-50`). -/
inductive LogMsg where
  /-- the record `"Error Vector has NaN values\n!" << errorVector_` -/
  | warnErrorVectorNaN (v : List F)
  /-- the header record `"Displaying p_e"` -/
  | warnDisplayingPe
  /-- one point of `pc_e` -/
  | warnDiffPoint (p : Point3)
  /-- the header record `"Displaying reference_"` -/
  | warnDisplayingReference
  /-- one point of `reference_` -/
  | warnRefPoint (p : Point3)
  /-- the header record `"Displaying current_"` -/
  | warnDisplayingCurrent
  /-- one point of `current_` -/
  | warnCurPoint (p : PointN)
  deriving DecidableEq

/-- The warning records of the non-finite branch of `computeError`
(`error_point_to_plane.cpp:37-49`), in emission order: the residual vector,
then every point of `pc_e`, of `reference_` and of `current_`, each section
preceded by its header line. -/
def nanLogs (ev : List F) (pc_e reference : List Point3) (current : List PointN) : List LogMsg :=
  LogMsg.warnErrorVectorNaN ev :: LogMsg.warnDisplayingPe :: pc_e.map LogMsg.warnDiffPoint
    ++ LogMsg.warnDisplayingReference :: reference.map LogMsg.warnRefPoint
    ++ LogMsg.warnDisplayingCurrent :: current.map LogMsg.warnCurPoint

/-- Method `ErrorPointToPlane::computeError` (`error_point_to_plane.cpp:21-51`).
The loop writes `errorVector_[i]`, reads `weights_(i,·)` and `(*current_)[i]`
for every `i < pc_e->size()` without bounds guards; an out-of-range access is
undefined behaviour in C++ and is modelled as `none`.  Otherwise the call
returns the updated state together with the `LOG(WARNING)` records: none when
`errorVector_.allFinite()`, else the full diagnostic dump.  The residual
vector is left in place, non-finite entries included. -/
def computeError (st : ErrorPointToPlane) : Option (ErrorPointToPlane × List LogMsg) :=
  if (pcE st).length ≤ st.errorVector.length ∧ (pcE st).length ≤ st.weights.length ∧
      (pcE st).length ≤ st.current.length then
    let ev := computedErrorVector st
    some ({ st with errorVector := ev },
      if ev.all F.isFinite then []
      else nanLogs ev (pcE st) st.reference st.current)
  else none

/-- The plain Eigen `resize` (as in `errorVector_.resize(n, Eigen::NoChange)`,
`error_point_to_plane.cpp:58`) gives no guarantee on coefficient values when
the size changes; the model keeps the surviving prefix and zero-fills the new
tail — a deterministic choice no claim depends on (only the length is ever
relied upon). -/
def resizeVector (v : List F) (n : ℕ) : List F :=
  v.take n ++ List.replicate (n - v.length) 0

/-- Method `ErrorPointToPlane::setInputCurrent` (`error_point_to_plane.cpp:53-62`):
binds the current cloud, resizes `errorVector_` to `|c|`, resizes `weights_`
and overwrites it with `MatrixX::Ones(|c|, 3)` (so no value surviving the
resize matters), and zeroes `J_` to `|c|×6`. -/
def setInputCurrent (st : ErrorPointToPlane) (c : List PointN) : ErrorPointToPlane :=
  { st with
    current := c
    errorVector := resizeVector st.errorVector c.length
    weights := List.replicate c.length (1, 1, 1)
    J := List.replicate c.length (List.replicate 6 0) }

/-- Method `ErrorPointToPlane::setInputReference` (`error_point_to_plane.cpp:64-67`):
only rebinds the reference cloud pointer. -/
def setInputReference (st : ErrorPointToPlane) (r : List Point3) : ErrorPointToPlane :=
  { st with reference := r }

end ErrorPointToPlane

/-- Value `std::numeric_limits<float>::max()`: the largest finite
single-precision value, `(2 − 2⁻²³)·2¹²⁷ = 2¹²⁸ − 2¹⁰⁴`. -/
def floatMaxQ : ℚ := 2 ^ 128 - 2 ^ 104

/-- Struct `IcpParameters_<float>` (`icp.hpp:33-54`): the optimisation
parameters. -/
structure IcpParameters where
  lambda : F
  max_iter : Int
  min_variation : F
  max_correspondance_distance : F
  initial_guess : List F
  deriving DecidableEq

/-- The default constructor `IcpParameters_()` (`icp.hpp:49-53`):
`lambda(1), max_iter(10), min_variation(10e-5),
max_correspondance_distance(std::numeric_limits<Dtype>::max())`, and
`initial_guess = Zero(6, 1)`. -/
def IcpParameters.init : IcpParameters :=
  { lambda := 1
    max_iter := 10
    min_variation := F.fin (10 / 10 ^ 5)
    max_correspondance_distance := F.fin floatMaxQ
    initial_guess := List.replicate 6 0 }

/-- The 4×4 zero matrix `Eigen::Matrix<Dtype, 4, 4>::Zero(4, 4)`. -/
def matrix4Zero : List (List F) := List.replicate 4 (List.replicate 4 0)

/-- Struct `IcpResults_<float, PointSource>` (`icp.hpp:73-99`): the result
record.
(`registeredPointCloud` is a `shared_ptr`; a null pointer is modelled as the
empty cloud.) -/
structure IcpResults where
  registeredPointCloud : List PointN
  registrationError : List F
  transformation : List (List F)
  deriving DecidableEq

namespace IcpResults

/-- Method `IcpResults_::getFinalError` (`icp.hpp:90-92`): returns
`registrationError[registrationError.size() - 1]`.  On an empty history the
C++ access is undefined behaviour; the `getD` default of the model never
matters for the claims, which assume a non-empty history. -/
def getFinalError (r : IcpResults) : F :=
  r.registrationError.getD (r.registrationError.length - 1) 0

/-- Method `IcpResults_::clear` (`icp.hpp:94-98`): empties the error history and
zeroes the transformation (the registered cloud is not touched). -/
def clear (r : IcpResults) : IcpResults :=
  { r with registrationError := [], transformation := matrix4Zero }

end IcpResults

/-- Type `pcl::KdTreeFLANN<PointTarget>`, the black-box nearest-neighbour
index: observable state is the cloud it was built from. -/
structure KdTreeFLANN where
  inputCloud : List Point3
  deriving DecidableEq

/-- Call `kdtree_.setInputCloud(cloud)`: (re)builds the index from `cloud`. -/
def KdTreeFLANN.setInputCloud (_k : KdTreeFLANN) (c : List Point3) : KdTreeFLANN :=
  { inputCloud := c }

/-- State of `Icp<float, PointSource, PointTarget, Error_, MEstimator>`
(`icp.hpp:123-219`): reference (target) cloud and its kd-tree, source cloud,
error-kernel instance, parameters, and accumulated results.  The `MEstimator`
member carries no observable state used by any claim and is omitted.  Null
`shared_ptr` clouds are modelled as the empty cloud. -/
structure Icp where
  target : List Point3
  kdtree : KdTreeFLANN
  source : List PointN
  err : ErrorPointToPlane
  param : IcpParameters
  r : IcpResults
  deriving DecidableEq

namespace Icp

/-- The default constructor `Icp() {}` (`icp.hpp:165-166`): every member is
default-constructed.  `std::vector` and the dynamic-size Eigen members become
empty, and `IcpParameters_()` runs; but the default constructor of the
FIXED-size Eigen `Matrix<Dtype, 4, 4>` performs no initialization, so the
`transformation` of the result record holds indeterminate contents, modelled
by the parameter `t0`. -/
def init (t0 : List (List F)) : Icp :=
  { target := []
    kdtree := ⟨[]⟩
    source := []
    err := { current := [], reference := [], errorVector := [], weights := [], J := [] }
    param := IcpParameters.init
    r := { registeredPointCloud := [], registrationError := [], transformation := t0 } }

/-- Method `Icp::setInputTarget` (`icp.hpp:197-200`): stores the target cloud and
rebuilds the kd-tree from it (`kdtree_.setInputCloud(target_)`). -/
def setInputTarget (icp : Icp) (c : List Point3) : Icp :=
  { icp with target := c, kdtree := icp.kdtree.setInputCloud c }

/-- Method `Icp::setInputSource` (`icp.hpp:206-208`): stores the source cloud. -/
def setInputSource (icp : Icp) (c : List PointN) : Icp :=
  { icp with source := c }

/-- Method `Icp::getResults` (`icp.hpp:216-218`): returns `r_`. -/
def getResults (icp : Icp) : IcpResults :=
  icp.r

end Icp

/-- A one-point error-strategy state with finite data, used to exercise the
definitions on concrete inputs: current point `(1,2,3)` with normal
`(1/2, 0, 1)`, reference point `(1,1,1)`, buffers sized as after
`setInputCurrent`. -/
def sampleFinite : ErrorPointToPlane :=
  { current := [⟨1, 2, 3, F.fin (1/2), 0, 1⟩]
    reference := [⟨1, 1, 1⟩]
    errorVector := [0]
    weights := [(1, 1, 1)]
    J := [List.replicate 6 0] }

/-- A one-point error-strategy state whose current normal holds a non-finite
value, so the computed residual is non-finite. -/
def sampleNaN : ErrorPointToPlane :=
  { current := [⟨0, 0, 0, F.nonfin, 0, 0⟩]
    reference := [⟨0, 0, 0⟩]
    errorVector := [0]
    weights := [(1, 1, 1)]
    J := [List.replicate 6 0] }

/-! ## Theorems -/

/-- C3: a default-constructed `IcpParameters_` has `lambda = 1`,
`max_iter = 10`, `min_variation = 1e-4` (the source literal `10e-5` denotes
the same value), `max_correspondance_distance` equal to the largest
representable value of the scalar type, and a zero 6-vector initial guess. -/
theorem icpParameters_default_values :
    IcpParameters.init.lambda = F.fin 1 ∧
    IcpParameters.init.max_iter = 10 ∧
    IcpParameters.init.min_variation = F.fin (1 / 10 ^ 4) ∧
    IcpParameters.init.max_correspondance_distance = F.fin floatMaxQ ∧
    IcpParameters.init.initial_guess = List.replicate 6 (F.fin 0) := by
  refine ⟨rfl, rfl, ?_, rfl, rfl⟩
  show F.fin (10 / 10 ^ 5) = F.fin (1 / 10 ^ 4)
  norm_num

/-- C6: `ErrorPointToPlane::setInputCurrent` resizes every per-point buffer
to the cardinality of the new cloud: the residual vector to length `|c|`, the
weight matrix to `|c|×3` all-ones, the Jacobian to a `|c|×6` zero matrix. -/
theorem setInputCurrent_resizes (st : ErrorPointToPlane) (c : List PointN) :
    (st.setInputCurrent c).errorVector.length = c.length ∧
    (st.setInputCurrent c).weights = List.replicate c.length (1, 1, 1) ∧
    (st.setInputCurrent c).J = List.replicate c.length (List.replicate 6 0) := by
  refine ⟨?_, rfl, rfl⟩
  simp only [ErrorPointToPlane.setInputCurrent, ErrorPointToPlane.resizeVector,
    List.length_append, List.length_take, List.length_replicate]
  omega

/-- C9: `ErrorPointToPlane::setInputReference` only rebinds the reference
cloud; the residual vector, the weight matrix, the Jacobian and the current
cloud keep their previous sizes and contents, with no constraint tying the
cardinality of the new reference to that of the bound current cloud. -/
theorem setInputReference_frame (st : ErrorPointToPlane) (r : List Point3) :
    (st.setInputReference r).reference = r ∧
    (st.setInputReference r).errorVector = st.errorVector ∧
    (st.setInputReference r).weights = st.weights ∧
    (st.setInputReference r).J = st.J ∧
    (st.setInputReference r).current = st.current :=
  ⟨rfl, rfl, rfl, rfl, rfl⟩

/-- C2: after `ErrorPointToPlane::computeJacobian` the Jacobian has one row
per current point, and row `i` is `[n_x, n_y, n_z, y·n_z − z·n_y,
z·n_x − x·n_z, y·n_y − y·n_x]` evaluated at current point `i`. -/
theorem computeJacobian_rows (st : ErrorPointToPlane) (i : ℕ)
    (h : i < st.current.length) :
    st.computeJacobian.J.length = st.current.length ∧
    st.computeJacobian.J.getD i [] =
      [(st.current.getD i default).normal_x,
       (st.current.getD i default).normal_y,
       (st.current.getD i default).normal_z,
       (st.current.getD i default).y * (st.current.getD i default).normal_z -
         (st.current.getD i default).z * (st.current.getD i default).normal_y,
       (st.current.getD i default).z * (st.current.getD i default).normal_x -
         (st.current.getD i default).x * (st.current.getD i default).normal_z,
       (st.current.getD i default).y * (st.current.getD i default).normal_y -
         (st.current.getD i default).y * (st.current.getD i default).normal_x] := by
  constructor
  · simp [ErrorPointToPlane.computeJacobian]
  · unfold ErrorPointToPlane.computeJacobian
    rw [List.getD_eq_getElem _ _ (by simpa using h), List.getElem_map,
      List.getD_eq_getElem _ _ h]

/-- Witness for C2 at `sampleFinite`, row 0. -/
theorem computeJacobian_rows_witness :
    0 < sampleFinite.current.length ∧
    (sampleFinite.computeJacobian.J.length = sampleFinite.current.length ∧
      sampleFinite.computeJacobian.J.getD 0 [] =
        [(sampleFinite.current.getD 0 default).normal_x,
         (sampleFinite.current.getD 0 default).normal_y,
         (sampleFinite.current.getD 0 default).normal_z,
         (sampleFinite.current.getD 0 default).y * (sampleFinite.current.getD 0 default).normal_z -
           (sampleFinite.current.getD 0 default).z * (sampleFinite.current.getD 0 default).normal_y,
         (sampleFinite.current.getD 0 default).z * (sampleFinite.current.getD 0 default).normal_x -
           (sampleFinite.current.getD 0 default).x * (sampleFinite.current.getD 0 default).normal_z,
         (sampleFinite.current.getD 0 default).y * (sampleFinite.current.getD 0 default).normal_y -
           (sampleFinite.current.getD 0 default).y * (sampleFinite.current.getD 0 default).normal_x]) :=
  ⟨by simp [sampleFinite], computeJacobian_rows sampleFinite 0 (by simp [sampleFinite])⟩

/-- C8: on a result record with a non-empty error history, `getFinalError`
returns the last element of the history (the final error, the history running
from initial to final). -/
theorem getFinalError_is_last (r : IcpResults) (h : r.registrationError ≠ []) :
    r.getFinalError = r.registrationError.getLast h := by
  unfold IcpResults.getFinalError
  have hl : r.registrationError.length - 1 < r.registrationError.length := by
    cases hr : r.registrationError
    · exact absurd hr h
    · simp
  rw [List.getD_eq_getElem _ _ hl, List.getLast_eq_getElem]

/-- Witness for C8 on the history `[1, 5]`: the final error is `5`. -/
theorem getFinalError_is_last_witness :
    ({ registeredPointCloud := []
       registrationError := [F.fin 1, F.fin 5]
       transformation := matrix4Zero } : IcpResults).registrationError ≠ [] ∧
    ({ registeredPointCloud := []
       registrationError := [F.fin 1, F.fin 5]
       transformation := matrix4Zero } : IcpResults).getFinalError = F.fin 5 := by
  refine ⟨by simp, ?_⟩
  rw [getFinalError_is_last _ (by simp)]
  rfl

/-- C5 (amended): `Icp::setInputTarget`, valid in any engine state, stores
the reference cloud and rebuilds the kd-tree from it, but leaves the result
record untouched: the results of a prior run are still stored and returned. -/
theorem setInputTarget_stores_and_rebuilds (icp : Icp) (c : List Point3) :
    (icp.setInputTarget c).target = c ∧
    (icp.setInputTarget c).kdtree.inputCloud = c ∧
    (icp.setInputTarget c).r = icp.r :=
  ⟨rfl, rfl, rfl⟩

/-- Counterexample to C5 as stated: an engine holding a prior non-empty
result history still returns exactly that history from `getResults` after
`setInputTarget`, so the prior results are not invalidated. -/
theorem setInputTarget_keeps_results_counterexample :
    (({ Icp.init matrix4Zero with
        r := { registeredPointCloud := []
               registrationError := [F.fin 3]
               transformation := matrix4Zero } } : Icp).setInputTarget
          [⟨1, 0, 0⟩]).getResults.registrationError = [F.fin 3] ∧
    [F.fin 3] ≠ ([] : List F) :=
  ⟨rfl, by simp⟩

/-- C4 (amended): `getResults()` on an engine on which `run()` has never been
called returns normally (not an error) with an empty error history; the 4×4
transformation holds whatever indeterminate contents the default-constructed
fixed-size Eigen matrix has — it is not the zero matrix by construction. -/
theorem getResults_before_run (t0 : List (List F)) :
    (Icp.init t0).getResults =
      { registeredPointCloud := [], registrationError := [], transformation := t0 } :=
  rfl

/-- Counterexample to C4 as stated: with all-ones indeterminate initial
contents, the transformation returned before any `run()` is not the zero
matrix (the constructor `Icp() {}` never calls `IcpResults_::clear`). -/
theorem getResults_before_run_counterexample :
    (Icp.init (List.replicate 4 (List.replicate 4 1))).getResults.registrationError = [] ∧
    (Icp.init (List.replicate 4 (List.replicate 4 1))).getResults.transformation ≠
      matrix4Zero := by
  refine ⟨rfl, ?_⟩
  simp [Icp.init, Icp.getResults, matrix4Zero]

/-- C10: when the per-point buffers are sized to the bound current cloud (as
`setInputCurrent` leaves them) and the difference cloud is no longer than the
current cloud, every unguarded access of `computeError` — `errorVector_[i]`,
`weights_(i,·)`, `(*current_)[i]` for `i < pc_e->size()` — is in bounds, so
the call does not go out of range (does not return the `none` of the model). -/
theorem computeError_in_bounds (st : ErrorPointToPlane)
    (h1 : st.errorVector.length = st.current.length)
    (h2 : st.weights.length = st.current.length)
    (h3 : st.pcE.length ≤ st.current.length) :
    st.computeError.isSome = true := by
  unfold ErrorPointToPlane.computeError
  rw [if_pos ⟨by omega, by omega, h3⟩]
  rfl

/-- Witness for C10 at `sampleFinite`. -/
theorem computeError_in_bounds_witness :
    sampleFinite.errorVector.length = sampleFinite.current.length ∧
    sampleFinite.weights.length = sampleFinite.current.length ∧
    sampleFinite.pcE.length ≤ sampleFinite.current.length ∧
    sampleFinite.computeError.isSome = true :=
  ⟨by simp [sampleFinite], by simp [sampleFinite],
   by simp [sampleFinite, ErrorPointToPlane.pcE, substractPointcloud],
   computeError_in_bounds sampleFinite (by simp [sampleFinite]) (by simp [sampleFinite])
     (by simp [sampleFinite, ErrorPointToPlane.pcE, substractPointcloud])⟩

/-- C7: when every access is in bounds and the computed residual vector has a
non-finite entry, `computeError` still returns normally, leaves the residual
vector — non-finite entries included — in place for the caller, and emits the
warning-level records dumping the residual vector, the difference points, the
reference points and the current points. -/
theorem computeError_nonfinite_logs (st : ErrorPointToPlane)
    (hb : st.pcE.length ≤ st.errorVector.length ∧ st.pcE.length ≤ st.weights.length ∧
      st.pcE.length ≤ st.current.length)
    (hf : st.computedErrorVector.all F.isFinite = false) :
    st.computeError = some
      ({ st with errorVector := st.computedErrorVector },
        ErrorPointToPlane.nanLogs st.computedErrorVector st.pcE st.reference st.current) := by
  unfold ErrorPointToPlane.computeError
  rw [if_pos hb]
  simp [hf]

/-- Witness for C7 at `sampleNaN`. -/
theorem computeError_nonfinite_logs_witness :
    (sampleNaN.pcE.length ≤ sampleNaN.errorVector.length ∧
      sampleNaN.pcE.length ≤ sampleNaN.weights.length ∧
      sampleNaN.pcE.length ≤ sampleNaN.current.length) ∧
    sampleNaN.computedErrorVector.all F.isFinite = false ∧
    sampleNaN.computeError = some
      ({ sampleNaN with errorVector := sampleNaN.computedErrorVector },
        ErrorPointToPlane.nanLogs sampleNaN.computedErrorVector sampleNaN.pcE
          sampleNaN.reference sampleNaN.current) :=
  ⟨by simp [sampleNaN, ErrorPointToPlane.pcE, substractPointcloud],
   by simp [sampleNaN, ErrorPointToPlane.computedErrorVector, ErrorPointToPlane.pcE,
     substractPointcloud, List.range_succ],
   computeError_nonfinite_logs sampleNaN
     (by simp [sampleNaN, ErrorPointToPlane.pcE, substractPointcloud])
     (by simp [sampleNaN, ErrorPointToPlane.computedErrorVector, ErrorPointToPlane.pcE,
       substractPointcloud, List.range_succ])⟩

/-- C1: whenever `computeError` completes, residual `i` equals the
per-channel-weighted signed projection of `(current_i − reference_i)` onto
the normal of current point `i`:
`r_i = w_x·n_x·dx + w_y·n_y·dy + w_z·n_z·dz`. -/
theorem computeError_residual (st st' : ErrorPointToPlane)
    (logs : List ErrorPointToPlane.LogMsg) (i : ℕ)
    (h : st.computeError = some (st', logs)) (hi : i < st.pcE.length) :
    st'.errorVector.getD i 0 =
      (st.weights.getD i (0, 0, 0)).1 * (st.current.getD i default).normal_x *
          ((st.current.getD i default).x - (st.reference.getD i default).x) +
        (st.weights.getD i (0, 0, 0)).2.1 * (st.current.getD i default).normal_y *
          ((st.current.getD i default).y - (st.reference.getD i default).y) +
        (st.weights.getD i (0, 0, 0)).2.2 * (st.current.getD i default).normal_z *
          ((st.current.getD i default).z - (st.reference.getD i default).z) := by
  have hr : i < st.reference.length := by
    have := hi
    simp only [ErrorPointToPlane.pcE, substractPointcloud, List.length_zipWith] at this
    omega
  have hc : i < st.current.length := by
    have := hi
    simp only [ErrorPointToPlane.pcE, substractPointcloud, List.length_zipWith] at this
    omega
  have hpc : st.pcE.getD i default =
      ⟨(st.current.getD i default).x - (st.reference.getD i default).x,
       (st.current.getD i default).y - (st.reference.getD i default).y,
       (st.current.getD i default).z - (st.reference.getD i default).z⟩ := by
    rw [List.getD_eq_getElem _ _ hi]
    simp only [ErrorPointToPlane.pcE, substractPointcloud, List.getElem_zipWith]
    rw [List.getD_eq_getElem _ _ hc, List.getD_eq_getElem _ _ hr]
  unfold ErrorPointToPlane.computeError at h
  split at h
  case isFalse => exact absurd h (by simp)
  case isTrue hcond =>
    simp only [Option.some.injEq, Prod.mk.injEq] at h
    obtain ⟨hst, -⟩ := h
    subst hst
    show st.computedErrorVector.getD i 0 = _
    unfold ErrorPointToPlane.computedErrorVector
    rw [List.getD_append _ _ _ _ (by simpa using hi),
      List.getD_eq_getElem _ _ (by simpa using hi),
      List.getElem_map, List.getElem_range]
    simp only [hpc]

/-- Witness for C1 at `sampleFinite`, correspondence 0. -/
theorem computeError_residual_witness :
    sampleFinite.computeError =
      some ({ sampleFinite with errorVector := [F.fin 2] }, []) ∧
    0 < sampleFinite.pcE.length ∧
    ({ sampleFinite with errorVector := [F.fin 2] } :
        ErrorPointToPlane).errorVector.getD 0 0 =
      (sampleFinite.weights.getD 0 (0, 0, 0)).1 *
          (sampleFinite.current.getD 0 default).normal_x *
          ((sampleFinite.current.getD 0 default).x -
            (sampleFinite.reference.getD 0 default).x) +
        (sampleFinite.weights.getD 0 (0, 0, 0)).2.1 *
          (sampleFinite.current.getD 0 default).normal_y *
          ((sampleFinite.current.getD 0 default).y -
            (sampleFinite.reference.getD 0 default).y) +
        (sampleFinite.weights.getD 0 (0, 0, 0)).2.2 *
          (sampleFinite.current.getD 0 default).normal_z *
          ((sampleFinite.current.getD 0 default).z -
            (sampleFinite.reference.getD 0 default).z) :=
  ⟨by
    simp [sampleFinite, ErrorPointToPlane.computeError, ErrorPointToPlane.computedErrorVector,
      ErrorPointToPlane.pcE, substractPointcloud, List.range_succ]
    norm_num,
   by simp [sampleFinite, ErrorPointToPlane.pcE, substractPointcloud],
   computeError_residual sampleFinite { sampleFinite with errorVector := [F.fin 2] } [] 0
     (by
       simp [sampleFinite, ErrorPointToPlane.computeError, ErrorPointToPlane.computedErrorVector,
         ErrorPointToPlane.pcE, substractPointcloud, List.range_succ]
       norm_num)
     (by simp [sampleFinite, ErrorPointToPlane.pcE, substractPointcloud])⟩
